import Mathlib

/-!
Verification of an HTTP CRM backend (two source files: `main.py`, `schemas.py`).

Strings are modelled as lists of characters (`Str := List Char`), which matches
Python semantics: `len`, slicing and `in` operate on code points. Float
literals (`0.72`, `0.55`) are modelled as exact rationals, since the code only
ever compares/returns these two fixed literals. The external document store
(`database.py`, not part of the repository sources) is modelled as an abstract
function parameter, following the spec of the Document Store Adapter.
-/

namespace CRM

/-- Strings as lists of code points, mirroring Python string semantics. -/
abbrev Str := List Char

/-- The set of characters removed by Python `str.strip()` (ASCII whitespace). -/
def pySpace (c : Char) : Bool :=
  c = ' ' || c = '\t' || c = '\n' || c = '\r' || c = '\x0b' || c = '\x0c'

/-- Python `str.strip()`: drop leading and trailing whitespace. -/
def pyStrip (s : Str) : Str :=
  ((s.dropWhile pySpace).reverse.dropWhile pySpace).reverse

/-- Python `str.lower()` on one character (ASCII range; all keywords the code
searches for are ASCII). -/
def lowerChar (c : Char) : Char :=
  if 'A' ≤ c && c ≤ 'Z' then Char.ofNat (c.toNat + 32) else c

/-- Python `str.lower()`. -/
def pyLower (s : Str) : Str := s.map lowerChar

/-- Python `needle in hay` substring test. -/
def containsSub (hay needle : Str) : Bool :=
  if needle.isPrefixOf hay then true
  else
    match hay with
    | [] => false
    | _ :: t => containsSub t needle

/-- `any(k in text.lower() for k in ks)` from `generate_insights`. -/
def anyKw (text : Str) (ks : List Str) : Bool :=
  ks.any (fun k => containsSub (pyLower text) k)

/-- Keyword group 1 from `main.py` line 84. -/
def kwGroup1 : List Str := ["meeting".data, "call".data, "sync".data, "demo".data]

/-- Keyword group 2 from `main.py` line 86. -/
def kwGroup2 : List Str := ["price".data, "budget".data, "quote".data, "discount".data]

/-- Keyword group 3 from `main.py` line 88. -/
def kwGroup3 : List Str := ["integration".data, "api".data, "trial".data, "pilot".data]

/-- Positive sentiment words from `main.py` line 97. -/
def posWords : List Str := ["great".data, "good".data, "excited".data, "love".data]

/-- Negative sentiment words from `main.py` line 98. -/
def negWords : List Str := ["concern".data, "issue".data, "problem".data, "delay".data]

/-- Fallback action items from `main.py` lines 91-95. -/
def fallbackItems : List Str :=
  ["Send a thank-you email".data,
   "Log the conversation in the CRM".data,
   "Set a reminder to follow up in 3 days".data]

/-- Result record of the insights endpoint. -/
structure Insights where
  summary : Str
  sentiment : Str
  action_items : List Str
  confidence : ℚ
deriving DecidableEq

/-- `generate_insights` from `main.py` lines 74-106, translated clause by
clause: strip the input, build the summary with 160-character truncation,
scan the three keyword groups in order, fall back to the fixed list, pick
sentiment positive/negative/neutral, and attach the confidence literal. -/
def generate_insights (input : Str) : Insights :=
  let text := pyStrip input
  let summary :=
    if text ≠ [] then
      text.take 160 ++ (if 160 < text.length then "...".data else [])
    else "No input provided".data
  let items :=
    (if anyKw text kwGroup1 then ["Schedule a follow-up meeting".data] else []) ++
    (if anyKw text kwGroup2 then ["Send pricing proposal".data] else []) ++
    (if anyKw text kwGroup3 then ["Share technical integration guide".data] else [])
  let action_items := if items = [] then fallbackItems else items
  let sentiment :=
    if anyKw text posWords then "positive".data
    else if anyKw text negWords then "negative".data
    else "neutral".data
  { summary := summary
    sentiment := sentiment
    action_items := action_items
    confidence := if sentiment ≠ "neutral".data then (72 : ℚ) / 100 else (55 : ℚ) / 100 }

/-- Contact record, from `src/schemas.py` lines 53-61: two required names,
optional email/phone/company/title/owner, and a lifecycle status drawn from
four literals with default "lead". -/
structure Contact where
  first_name : String
  last_name : String
  email : Option String
  phone : Option String
  company : Option String
  title : Option String
  status : String
  owner : Option String
deriving DecidableEq

/-- An incoming JSON payload for a Contact: each declared field either
present (with a string value) or absent. -/
structure ContactPayload where
  first_name : Option String
  last_name : Option String
  email : Option String
  phone : Option String
  company : Option String
  title : Option String
  status : Option String
  owner : Option String
deriving DecidableEq

/-- The enumerated status literals of `src/schemas.py` line 60. -/
def statusLiterals : List String := ["lead", "prospect", "customer", "churned"]

/-- Modelled from the spec: the pydantic validation library is not part of
the repository sources, so field-error collection follows spec 4.1 over the
field declarations of `src/schemas.py` lines 53-61 — a violation is recorded
per field (missing required name, malformed email as judged by the abstract
`emailOk` check, status outside the enumerated literals). -/
def contactErrs (emailOk : String → Bool) (p : ContactPayload) : List String :=
  (if p.first_name.isNone then ["first_name"] else []) ++
  (if p.last_name.isNone then ["last_name"] else []) ++
  (match p.email with
   | some e => if emailOk e then [] else ["email"]
   | none => []) ++
  (match p.status with
   | some s => if s ∈ statusLiterals then [] else ["status"]
   | none => [])

/-- Modelled from the spec: pydantic validation of a Contact payload —
reject with the collected field errors when any exist, otherwise build the
typed record, defaulting an absent status to "lead" (`src/schemas.py`
line 60). -/
def validate_contact (emailOk : String → Bool) (p : ContactPayload) :
    Except (List String) Contact :=
  match p.first_name, p.last_name with
  | some fn, some ln =>
      if contactErrs emailOk p = [] then
        .ok ⟨fn, ln, p.email, p.phone, p.company, p.title, p.status.getD "lead", p.owner⟩
      else .error (contactErrs emailOk p)
  | _, _ => .error (contactErrs emailOk p)

/-- Outcome of a call into the document store: a value, or a raised
exception carrying a message. The store itself (`database.py`) is not part
of the repository sources and is modelled from the spec as an abstract
operation. -/
inductive StoreResult (α : Type) where
  | ok (val : α)
  | err (msg : String)
deriving DecidableEq

/-- `create_contact` from `main.py` lines 128-134: delegate to the store
`create` on collection "contact"; return `{id, status: "created"}` on
success, or an HTTP 500 carrying the exception message. -/
def create_contact (store : String → Contact → StoreResult String) (c : Contact) :
    Except (Nat × String) (String × String) :=
  match store "contact" c with
  | .ok newId => .ok (newId, "created")
  | .err m => .error (500, m)

/-- A value stored in a document: a plain string, or an internal ObjectId
identifier (whose `str()` rendering is the carried string). -/
inductive Val where
  | str (s : String)
  | objId (s : String)
deriving DecidableEq

/-- Python `str()` applied to a document value. -/
def valStr : Val → String
  | .str s => s
  | .objId s => s

/-- A stored document: an insertion-ordered dictionary from string keys to
values. -/
abbrev Doc := List (String × Val)

/-- Python `d[k]` lookup (first binding wins; dictionaries have unique
keys). -/
def getVal : Doc → String → Option Val
  | [], _ => none
  | (k', v) :: t, k => if k' = k then some v else getVal t k

/-- Python `k in d` key-membership test. -/
def hasKey (d : Doc) (k : String) : Bool := (getVal d k).isSome

/-- Python `d.pop(k)`: the dictionary with key `k` removed. -/
def popKey : Doc → String → Doc
  | [], _ => []
  | (k', v) :: t, k => if k' = k then popKey t k else (k', v) :: popKey t k

/-- Overwrite the value of an existing key in place. -/
def replaceKey : Doc → String → Val → Doc
  | [], _, _ => []
  | (k', v') :: t, k, v =>
      if k' = k then (k, v) :: replaceKey t k v else (k', v') :: replaceKey t k v

/-- Python `d[k] = v`: overwrite in place when the key exists, else append
at the end (insertion order). -/
def setKey (d : Doc) (k : String) (v : Val) : Doc :=
  if hasKey d k then replaceKey d k v else d ++ [(k, v)]

/-- The per-document loop body of `list_contacts` (`main.py` lines
141-143): when an internal `_id` is present, remove it and store its string
rendering under the key `id`. -/
def convertDoc (d : Doc) : Doc :=
  match getVal d "_id" with
  | some v => setKey (popKey d "_id") "id" (Val.str (valStr v))
  | none => d

/-- `list_contacts` from `main.py` lines 136-146: fetch documents from the
"contact" collection with the caller limit (default 20), rewrite internal
identifiers, or answer HTTP 500 with the exception message. -/
def list_contacts (store : String → Int → StoreResult (List Doc)) (limit : Option Int) :
    Except (Nat × String) (List Doc) :=
  match store "contact" (limit.getD 20) with
  | .ok docs => .ok (docs.map convertDoc)
  | .err m => .error (500, m)

/-- Python `str(e)[:50]` truncation of an exception message. -/
def trunc50 (s : String) : String := String.mk (s.data.take 50)

/-- Modelled from the spec: the outcome of the fallible steps of the `/test`
probe (`main.py` lines 37-60) — the `database` module (not part of the
repository sources) may fail to import, raise some other exception, expose
an uninitialized `db`, or yield a handle with an optional `name` attribute
whose collection listing either succeeds or raises. -/
inductive DbProbe where
  | importFailed
  | otherError (msg : String)
  | dbNone
  | connected (dbName : Option String) (cols : StoreResult (List String))
deriving DecidableEq

/-- The response dictionary of the `/test` endpoint (`main.py` lines
28-35). -/
structure TestResponse where
  backend : String
  database : String
  database_url : String
  database_name : String
  connection_status : String
  collections : List String
deriving DecidableEq

/-- The environment checks of `main.py` lines 64-65: Python truthiness of
`os.getenv` (absent and empty string are both falsy). -/
def envIndicator (env : String → Option String) (k : String) : String :=
  match env k with
  | some v => if v = "" then "❌ Not Set" else "✅ Set"
  | none => "❌ Not Set"

/-- `test_database` from `main.py` lines 25-67, translated branch by
branch; the initial Python `None` placeholders for the two URL/name fields
are rendered as "None" since lines 64-65 overwrite them unconditionally. -/
def test_database (probe : DbProbe) (env : String → Option String) : TestResponse :=
  let r0 : TestResponse :=
    { backend := "✅ Running", database := "❌ Not Available", database_url := "None",
      database_name := "None", connection_status := "Not Connected", collections := [] }
  let r1 :=
    match probe with
    | .importFailed =>
        { r0 with database := "❌ Database module not found (run enable-database first)" }
    | .otherError m => { r0 with database := "❌ Error: " ++ trunc50 m }
    | .dbNone => { r0 with database := "⚠️  Available but not initialized" }
    | .connected nm colsRes =>
        let r :=
          { r0 with
            database := "✅ Available"
            database_url := "✅ Configured"
            database_name := nm.getD "✅ Connected"
            connection_status := "Connected" }
        match colsRes with
        | .ok cols => { r with collections := cols.take 10, database := "✅ Connected & Working" }
        | .err e => { r with database := "⚠️  Connected but Error: " ++ trunc50 e }
  { r1 with
    database_url := envIndicator env "DATABASE_URL"
    database_name := envIndicator env "DATABASE_NAME" }

end CRM

open CRM

/-- Claim C1: after trimming, an empty input yields the summary
"No input provided"; otherwise the summary is the first 160 characters of
the trimmed text with "..." appended exactly when the trimmed length
exceeds 160; in that case the summary is exactly 163 characters long. -/
theorem C1_insights_summary (input : Str) :
    ((generate_insights input).summary =
      if pyStrip input = [] then "No input provided".data
      else (pyStrip input).take 160 ++
        (if 160 < (pyStrip input).length then "...".data else [])) ∧
    (160 < (pyStrip input).length →
      (generate_insights input).summary.length = 163) := by
  constructor
  · by_cases h : pyStrip input = [] <;>
      simp [generate_insights, h]
  · intro h
    have hne : pyStrip input ≠ [] := by
      intro he
      rw [he] at h
      simp at h
    have hdots : ("...".data).length = 3 := rfl
    simp [generate_insights, hne, h, List.length_take, hdots]
    omega

set_option maxRecDepth 10000

/-- Witness for C1 on a concrete 200-character input. -/
theorem C1_insights_summary_witness :
    160 < (pyStrip (List.replicate 200 'a')).length ∧
    (generate_insights (List.replicate 200 'a')).summary.length = 163 :=
  ⟨by decide, (C1_insights_summary (List.replicate 200 'a')).2 (by decide)⟩

/-- Claim C2: the action items are built by scanning the trimmed text for
the three keyword groups in fixed order, appending at most one fixed item
per matched group; when no group matches, the result is exactly the
three-item fallback list in order. -/
theorem C2_insights_action_items (input : Str) :
    (generate_insights input).action_items =
      if anyKw (pyStrip input) kwGroup1 = false ∧ anyKw (pyStrip input) kwGroup2 = false ∧
          anyKw (pyStrip input) kwGroup3 = false then
        ["Send a thank-you email".data,
         "Log the conversation in the CRM".data,
         "Set a reminder to follow up in 3 days".data]
      else
        (if anyKw (pyStrip input) kwGroup1 then ["Schedule a follow-up meeting".data] else []) ++
        (if anyKw (pyStrip input) kwGroup2 then ["Send pricing proposal".data] else []) ++
        (if anyKw (pyStrip input) kwGroup3 then ["Share technical integration guide".data] else []) := by
  by_cases h1 : anyKw (pyStrip input) kwGroup1 <;>
    by_cases h2 : anyKw (pyStrip input) kwGroup2 <;>
      by_cases h3 : anyKw (pyStrip input) kwGroup3 <;>
        simp [generate_insights, fallbackItems, h1, h2, h3]

/-- Claim C3: sentiment is "positive" if any positive keyword occurs in the
trimmed text (taking precedence), else "negative" if any negative keyword
occurs, else "neutral"; confidence is 0.72 when sentiment is not "neutral"
and 0.55 when it is. -/
theorem C3_insights_sentiment (input : Str) :
    ((generate_insights input).sentiment =
      if anyKw (pyStrip input) posWords then "positive".data
      else if anyKw (pyStrip input) negWords then "negative".data
      else "neutral".data) ∧
    ((generate_insights input).confidence =
      if (generate_insights input).sentiment ≠ "neutral".data then (72 : ℚ) / 100
      else (55 : ℚ) / 100) := by
  constructor
  · by_cases hp : anyKw (pyStrip input) posWords <;>
      by_cases hn : anyKw (pyStrip input) negWords <;>
        simp [generate_insights, hp, hn]
  · by_cases hp : anyKw (pyStrip input) posWords <;>
      by_cases hn : anyKw (pyStrip input) negWords <;>
        simp [generate_insights, hp, hn]

/-- Claim C9: the insights analysis is a pure, total, deterministic function
of the input text: equal inputs give equal results, and every input (the
empty string included) yields a valid result — a nonempty summary, a
sentiment among the three labels, a nonempty action-item list, and a
confidence that is one of the two literals. -/
theorem C9_insights_pure_total (t1 t2 : Str) :
    (t1 = t2 → generate_insights t1 = generate_insights t2) ∧
    ((generate_insights t1).sentiment = "positive".data ∨
     (generate_insights t1).sentiment = "negative".data ∨
     (generate_insights t1).sentiment = "neutral".data) ∧
    (generate_insights t1).action_items ≠ [] ∧
    ((generate_insights t1).confidence = (72 : ℚ) / 100 ∨
     (generate_insights t1).confidence = (55 : ℚ) / 100) ∧
    (generate_insights t1).summary ≠ [] := by
  refine ⟨fun h => by rw [h], ?_, ?_, ?_, ?_⟩
  · by_cases hp : anyKw (pyStrip t1) posWords <;>
      by_cases hn : anyKw (pyStrip t1) negWords <;>
        simp [generate_insights, hp, hn]
  · by_cases h1 : anyKw (pyStrip t1) kwGroup1 <;>
      by_cases h2 : anyKw (pyStrip t1) kwGroup2 <;>
        by_cases h3 : anyKw (pyStrip t1) kwGroup3 <;>
          simp [generate_insights, fallbackItems, h1, h2, h3]
  · by_cases hp : anyKw (pyStrip t1) posWords <;>
      by_cases hn : anyKw (pyStrip t1) negWords <;>
        simp [generate_insights, hp, hn]
  · by_cases h : pyStrip t1 = []
    · simp [generate_insights, h]
    · simp [generate_insights, h, List.append_eq_nil, List.take_eq_nil_iff]

/-- Witness for C9 at a concrete input. -/
theorem C9_insights_pure_total_witness :
    generate_insights "hello".data = generate_insights "hello".data ∧
    (generate_insights "hello".data).action_items ≠ [] :=
  ⟨(C9_insights_pure_total "hello".data "hello".data).1 rfl,
   (C9_insights_pure_total "hello".data "hello".data).2.2.1⟩

/-- Claim C4: contact validation rejects any payload whose status is not
one of the four enumerated literals ("archived" in particular fails with a
validation error naming the status field), and a payload omitting status
validates with status defaulted to "lead". -/
theorem C4_contact_status_validation (emailOk : String → Bool) (p : ContactPayload) :
    (∀ s, p.status = some s → s ∉ statusLiterals →
      ∃ errs, validate_contact emailOk p = .error errs ∧ "status" ∈ errs) ∧
    (p.status = none → ∀ c, validate_contact emailOk p = .ok c → c.status = "lead") ∧
    (∀ fn ln, p.status = none → p.first_name = some fn → p.last_name = some ln →
      p.email = none →
      validate_contact emailOk p =
        .ok ⟨fn, ln, none, p.phone, p.company, p.title, "lead", p.owner⟩) := by
  obtain ⟨fn, ln, em, ph, co, ti, st, ow⟩ := p
  refine ⟨?_, ?_, ?_⟩
  · intro s hs hns
    cases hs
    have hmem : "status" ∈
        contactErrs emailOk ⟨fn, ln, em, ph, co, ti, some s, ow⟩ := by
      simp [contactErrs, hns]
    have hne : contactErrs emailOk ⟨fn, ln, em, ph, co, ti, some s, ow⟩ ≠ [] :=
      List.ne_nil_of_mem hmem
    refine ⟨contactErrs emailOk ⟨fn, ln, em, ph, co, ti, some s, ow⟩, ?_, hmem⟩
    cases fn <;> cases ln <;> simp [validate_contact, hne]
  · intro hs c hc
    cases hs
    cases fn with
    | none => simp [validate_contact] at hc
    | some fn =>
      cases ln with
      | none => simp [validate_contact] at hc
      | some ln =>
        simp only [validate_contact] at hc
        split at hc
        · cases hc
          rfl
        · cases hc
  · intro fn' ln' hs hf hl he
    cases hs
    cases hf
    cases hl
    cases he
    simp [validate_contact, contactErrs]

/-- Witness for C4 on two concrete payloads: one with status "archived"
(rejected, status listed among the errors) and one omitting status
(accepted with status "lead"). -/
theorem C4_contact_status_validation_witness :
    (∃ errs,
      validate_contact (fun _ => true)
        ⟨some "Ada", some "Lovelace", none, none, none, none, some "archived", none⟩ =
        .error errs ∧ "status" ∈ errs) ∧
    validate_contact (fun _ => true)
      ⟨some "Ada", some "Lovelace", none, none, none, none, none, none⟩ =
      .ok ⟨"Ada", "Lovelace", none, none, none, none, "lead", none⟩ :=
  ⟨(C4_contact_status_validation (fun _ => true)
      ⟨some "Ada", some "Lovelace", none, none, none, none, some "archived", none⟩).1
      "archived" rfl (by decide),
   (C4_contact_status_validation (fun _ => true)
      ⟨some "Ada", some "Lovelace", none, none, none, none, none, none⟩).2.2
      "Ada" "Lovelace" rfl rfl rfl rfl⟩

/-- Claim C5: contact creation either succeeds — returning exactly the new
identifier with status "created" — or maps the store exception to HTTP 500
with the exception message as detail; no other outcome exists. -/
theorem C5_create_contact_outcome (store : String → Contact → StoreResult String)
    (c : Contact) :
    (∃ i, store "contact" c = .ok i ∧ create_contact store c = .ok (i, "created")) ∨
    (∃ m, store "contact" c = .err m ∧ create_contact store c = .error (500, m)) := by
  cases h : store "contact" c with
  | ok i => exact Or.inl ⟨i, rfl, by simp [create_contact, h]⟩
  | err m => exact Or.inr ⟨m, rfl, by simp [create_contact, h]⟩

theorem getVal_popKey_self (d : Doc) (k : String) : getVal (popKey d k) k = none := by
  induction d with
  | nil => rfl
  | cons e t ih =>
    obtain ⟨k', v⟩ := e
    by_cases h : k' = k <;> simp [popKey, getVal, h, ih]

theorem getVal_replaceKey_ne (d : Doc) (k k' : String) (v : Val) (h : k' ≠ k) :
    getVal (replaceKey d k v) k' = getVal d k' := by
  induction d with
  | nil => rfl
  | cons e t ih =>
    obtain ⟨k0, v0⟩ := e
    by_cases h0 : k0 = k
    · subst h0
      simp [replaceKey, getVal, Ne.symm h, ih]
    · by_cases h1 : k0 = k' <;> simp [replaceKey, getVal, h0, h1, h, ih]

theorem getVal_append_single_ne (d : Doc) (k k' : String) (v : Val) (h : k' ≠ k) :
    getVal (d ++ [(k, v)]) k' = getVal d k' := by
  induction d with
  | nil => simp [getVal, Ne.symm h]
  | cons e t ih =>
    obtain ⟨k0, v0⟩ := e
    by_cases h0 : k0 = k' <;> simp [getVal, h0, ih]

theorem getVal_setKey_ne (d : Doc) (k k' : String) (v : Val) (h : k' ≠ k) :
    getVal (setKey d k v) k' = getVal d k' := by
  by_cases h0 : hasKey d k <;>
    simp [setKey, h0, getVal_replaceKey_ne d k k' v h, getVal_append_single_ne d k k' v h]

theorem getVal_replaceKey_self (d : Doc) (k : String) (v : Val)
    (h : hasKey d k = true) : getVal (replaceKey d k v) k = some v := by
  induction d with
  | nil => simp [hasKey, getVal] at h
  | cons e t ih =>
    obtain ⟨k0, v0⟩ := e
    by_cases h0 : k0 = k
    · simp [replaceKey, getVal, h0]
    · simp only [hasKey, getVal, h0, if_false] at h
      simp [replaceKey, getVal, h0, ih h]

theorem getVal_append_single_self (d : Doc) (k : String) (v : Val)
    (h : hasKey d k = false) : getVal (d ++ [(k, v)]) k = some v := by
  induction d with
  | nil => simp [getVal]
  | cons e t ih =>
    obtain ⟨k0, v0⟩ := e
    by_cases h0 : k0 = k
    · simp [hasKey, getVal, h0] at h
    · simp only [hasKey, getVal, h0, if_false] at h
      simp [getVal, h0, ih h]

theorem getVal_setKey_self (d : Doc) (k : String) (v : Val) :
    getVal (setKey d k v) k = some v := by
  by_cases h0 : hasKey d k
  · simp [setKey, h0, getVal_replaceKey_self d k v h0]
  · simp only [Bool.not_eq_true] at h0
    simp [setKey, h0, getVal_append_single_self d k v h0]

theorem hasKey_convertDoc_internal (d : Doc) : hasKey (convertDoc d) "_id" = false := by
  unfold convertDoc
  cases h : getVal d "_id" with
  | none => simp [hasKey, h]
  | some v =>
    have hne : ("_id" : String) ≠ "id" := by decide
    have : getVal (setKey (popKey d "_id") "id" (Val.str (valStr v))) "_id" = none := by
      rw [getVal_setKey_ne _ _ _ _ hne]
      exact getVal_popKey_self d "_id"
    simp [hasKey, this]

/-- Claim C6: contact listing defaults the limit to 20 when none is
supplied, returns the stored documents with internal identifiers rewritten
into a plain string field "id" (no returned document keeps "_id"), and maps
a store exception to HTTP 500 with a detail string. -/
theorem C6_list_contacts_contract (store : String → Int → StoreResult (List Doc))
    (limit : Option Int) :
    ((∃ docs, store "contact" (limit.getD 20) = .ok docs ∧
        list_contacts store limit = .ok (docs.map convertDoc)) ∨
     (∃ m, store "contact" (limit.getD 20) = .err m ∧
        list_contacts store limit = .error (500, m))) ∧
    list_contacts store none = list_contacts store (some 20) ∧
    (∀ d : Doc, hasKey (convertDoc d) "_id" = false) := by
  refine ⟨?_, rfl, hasKey_convertDoc_internal⟩
  cases h : store "contact" (limit.getD 20) with
  | ok docs => exact Or.inl ⟨docs, rfl, by simp [list_contacts, h]⟩
  | err m => exact Or.inr ⟨m, rfl, by simp [list_contacts, h]⟩

/-- Claim C10: a listed document without an internal "_id" key is returned
unchanged (no "id" field added); one with "_id" has that key removed and
replaced by the string field "id"; hence for documents that did not already
carry "id", its presence after listing matches the presence of "_id". -/
theorem C10_listed_doc_id_conditional (d : Doc) :
    (hasKey d "_id" = false → convertDoc d = d) ∧
    (∀ v, getVal d "_id" = some v →
      hasKey (convertDoc d) "_id" = false ∧
      getVal (convertDoc d) "id" = some (Val.str (valStr v))) ∧
    (hasKey d "id" = false → hasKey (convertDoc d) "id" = hasKey d "_id") := by
  refine ⟨?_, ?_, ?_⟩
  · intro h
    have hg : getVal d "_id" = none := by
      cases hg : getVal d "_id" with
      | none => rfl
      | some v => simp [hasKey, hg] at h
    simp [convertDoc, hg]
  · intro v hv
    refine ⟨hasKey_convertDoc_internal d, ?_⟩
    simp [convertDoc, hv, getVal_setKey_self]
  · intro h
    cases hg : getVal d "_id" with
    | none =>
      simp only [hasKey] at h ⊢
      simp [convertDoc, hg, h]
    | some v =>
      simp [hasKey, convertDoc, hg, getVal_setKey_self]

/-- Witness for C10 on two concrete documents: one without "_id" (returned
unchanged) and one with "_id" (rewritten into a string "id" field). -/
theorem C10_listed_doc_id_conditional_witness :
    convertDoc [("name", Val.str "X")] = [("name", Val.str "X")] ∧
    getVal (convertDoc [("_id", Val.objId "abc"), ("name", Val.str "X")]) "id" =
      some (Val.str "abc") :=
  ⟨(C10_listed_doc_id_conditional [("name", Val.str "X")]).1 (by decide),
   ((C10_listed_doc_id_conditional
      [("_id", Val.objId "abc"), ("name", Val.str "X")]).2.1
      (Val.objId "abc") (by decide)).2⟩

/-- Claim C7: the diagnostics probe reports each of the two environment
configuration values (DATABASE_URL and DATABASE_NAME) through the
environment indicator, whose value is always among the allowed indicator
states — concretely "Set" or "Not Set" (the third state, not applicable,
is never produced). -/
theorem C7_env_config_indicator (probe : DbProbe) (env : String → Option String) :
    ((test_database probe env).database_url = "✅ Set" ∨
     (test_database probe env).database_url = "❌ Not Set") ∧
    ((test_database probe env).database_name = "✅ Set" ∨
     (test_database probe env).database_name = "❌ Not Set") ∧
    (test_database probe env).database_url = envIndicator env "DATABASE_URL" ∧
    (test_database probe env).database_name = envIndicator env "DATABASE_NAME" := by
  have hv : ∀ k, envIndicator env k = "✅ Set" ∨ envIndicator env k = "❌ Not Set" := by
    intro k
    unfold envIndicator
    cases env k with
    | none => exact Or.inr rfl
    | some v =>
      by_cases h0 : v = ""
      · exact Or.inr (by simp [h0])
      · exact Or.inl (by simp [h0])
  have hu : (test_database probe env).database_url = envIndicator env "DATABASE_URL" := by
    cases probe with
    | importFailed => simp [test_database]
    | otherError m => simp [test_database]
    | dbNone => simp [test_database]
    | connected nm colsRes => cases colsRes <;> simp [test_database]
  have hn : (test_database probe env).database_name = envIndicator env "DATABASE_NAME" := by
    cases probe with
    | importFailed => simp [test_database]
    | otherError m => simp [test_database]
    | dbNone => simp [test_database]
    | connected nm colsRes => cases colsRes <;> simp [test_database]
  exact ⟨hu ▸ hv "DATABASE_URL", hn ▸ hv "DATABASE_NAME", hu, hn⟩

/-- Claim C8: the diagnostics probe is total — every failure mode of the
database probe (missing module, other exception, uninitialized handle,
listing failure) is mapped to its descriptive status string — and the
collections field always holds at most 10 names. -/
theorem C8_diagnostics_never_raises (probe : DbProbe) (env : String → Option String) :
    (test_database probe env).collections.length ≤ 10 ∧
    (test_database probe env).database =
      (match probe with
       | .importFailed => "❌ Database module not found (run enable-database first)"
       | .otherError m => "❌ Error: " ++ trunc50 m
       | .dbNone => "⚠️  Available but not initialized"
       | .connected _ (.ok _) => "✅ Connected & Working"
       | .connected _ (.err e) => "⚠️  Connected but Error: " ++ trunc50 e) := by
  cases probe with
  | importFailed => exact ⟨by simp [test_database], by simp [test_database]⟩
  | otherError m => exact ⟨by simp [test_database], by simp [test_database]⟩
  | dbNone => exact ⟨by simp [test_database], by simp [test_database]⟩
  | connected nm colsRes =>
    cases colsRes with
    | ok cols =>
      exact ⟨by simp [test_database], by simp [test_database]⟩
    | err e => exact ⟨by simp [test_database], by simp [test_database]⟩
